import Mathlib

/-!
Verification of the building heating management system core.

The development shallowly embeds the decision engine of
`src/control_logic.py`, the schedule handling of `src/schemas.py`, the
register device of `src/zone_simulator.py`, the energy pricer of
`src/energy_pricer.py`, the historical replay loop of
`src/historical_simulator.py` and the standalone setpoint arbiter plus
thermal model of `scripts/run_historical_simulation.py`.

Modelling conventions:
  - Python floats are modelled as rationals; all numeric literals of the
    source are exactly representable.
  - A time of day (`datetime.time` restricted to HH:MM) is modelled as
    minutes since midnight, a natural number.  Ordering of `datetime.time`
    values agrees with ordering of minute counts.
  - The outcome of parsing `zone.preferences` (lines 58-67 of
    `control_logic.py`: `json.loads` plus the pydantic construction inside
    `try/except`) is modelled as an `Option ZonePreferences`; `none` is the
    caught-exception path.
  - A weather dict is modelled as `Option (Option Rat)`: the outer level is
    truthiness of `current_weather`, the inner level is the presence of the
    key `temp_c`.
  - Python `sorted` is a stable sort by key; `List.mergeSort` with the
    corresponding boolean key comparison is likewise stable.
-/

/-! ### Rounding and truncation primitives (Python `round` and `int`) -/

/-- Python `round(x)` on a rational: round half to even (banker's rounding). -/
def roundHalfEven (q : ℚ) : ℤ :=
  let f := ⌊q⌋
  let r := q - (f : ℚ)
  if r < 1/2 then f
  else if 1/2 < r then f + 1
  else if f % 2 = 0 then f else f + 1

/-- Python `round(x, 1)`. -/
def pyRound1 (q : ℚ) : ℚ := (roundHalfEven (q * 10) : ℚ) / 10

/-- Python `round(x, 2)`. -/
def pyRound2 (q : ℚ) : ℚ := (roundHalfEven (q * 100) : ℚ) / 100

/-- Python `int(x)` on a float: truncation toward zero. -/
def pyTrunc (q : ℚ) : ℤ := if q < 0 then -⌊-q⌋ else ⌊q⌋

/-! ### Data model (`src/schemas.py`) -/

/-- `schemas.ScheduleEntry` after validation: the time string HH:MM is
represented as minutes since midnight. -/
structure ScheduleEntry where
  time : Nat
  occupied_temp : ℚ
  unoccupied_temp : ℚ
deriving DecidableEq

/-- `schemas.ZonePreferences`.  Fields that the source guards with
`is not None` checks (or returns directly as possibly-None) keep their
`Optional` type; the remaining fields always carry a numeric or boolean
value in the schema and are modelled with their plain type.  A `None`
schedule and an empty schedule list are both falsy in Python and are both
modelled as the empty list. -/
structure ZonePreferences where
  schedule : List ScheduleEntry
  default_occupied_temp : Option ℚ
  default_unoccupied_temp : Option ℚ
  min_target_temp : Option ℚ
  max_target_temp : Option ℚ
  use_occupancy_for_heating : Bool
  setback_setpoint : Option ℚ
  allow_weather_adjustment : Bool
  weather_adjustment_freezing_threshold : ℚ
  weather_adjustment_cold_boost_degrees : ℚ
  weather_adjustment_mild_threshold : ℚ
  weather_adjustment_mild_reduction_degrees : ℚ
  peak_occupied_temp_reduction : ℚ
  super_peak_occupied_temp_reduction : ℚ
  allow_off_peak_preconditioning : Bool
  off_peak_occupied_temp_increase : ℚ
  allow_predictive_control : Bool
  predictive_window_hours : Nat
  predictive_temp_drop_threshold : ℚ
  predictive_preheat_increase : ℚ
  predictive_temp_rise_threshold : ℚ
  predictive_avoid_overheat_reduction : ℚ
  prioritize_comfort_over_peak_cost : Bool
  max_combined_preheat_boost : ℚ
  high_outside_temp_threshold : ℚ
  occupied_temp_reduction_high_outside : ℚ

/-- The schema defaults of `schemas.ZonePreferences` (every field is
`Optional` with these defaults). -/
def defaultZonePreferences : ZonePreferences where
  schedule := []
  default_occupied_temp := some 21
  default_unoccupied_temp := some 17
  min_target_temp := some 15
  max_target_temp := some 25
  use_occupancy_for_heating := true
  setback_setpoint := some 16
  allow_weather_adjustment := false
  weather_adjustment_freezing_threshold := 0
  weather_adjustment_cold_boost_degrees := 0.5
  weather_adjustment_mild_threshold := 15
  weather_adjustment_mild_reduction_degrees := 0
  peak_occupied_temp_reduction := 0.5
  super_peak_occupied_temp_reduction := 1
  allow_off_peak_preconditioning := false
  off_peak_occupied_temp_increase := 0.5
  allow_predictive_control := false
  predictive_window_hours := 4
  predictive_temp_drop_threshold := 2
  predictive_preheat_increase := 0.5
  predictive_temp_rise_threshold := 2
  predictive_avoid_overheat_reduction := 0.5
  prioritize_comfort_over_peak_cost := false
  max_combined_preheat_boost := 1.5
  high_outside_temp_threshold := 21
  occupied_temp_reduction_high_outside := 1

/-! ### Schedule resolver (`control_logic.get_active_schedule_setpoint`) -/

/-- The key comparison used by `sorted(schedule, key=time)`. -/
def schedule_le (a b : ScheduleEntry) : Bool := decide (a.time ≤ b.time)

/-- The for-loop of `get_active_schedule_setpoint` (lines 24-32): walk the
sorted entries, remember the last entry whose time is at most the query
time, and break at the first later entry. -/
def scan_active : List ScheduleEntry → Nat → Option ScheduleEntry → Option ScheduleEntry
  | [], _, active => active
  | entry :: rest, current_time, active =>
    if entry.time ≤ current_time then scan_active rest current_time (some entry)
    else active

/-- `control_logic.get_active_schedule_setpoint` (lines 13-43). -/
def get_active_schedule_setpoint (preferences : ZonePreferences) (current_time : Nat) :
    Option ℚ :=
  if preferences.schedule.isEmpty then preferences.default_occupied_temp
  else
    let sorted_schedules := preferences.schedule.mergeSort schedule_le
    match scan_active sorted_schedules current_time none with
    | some active_entry => some active_entry.occupied_temp
    | none => preferences.default_occupied_temp

/-! ### Control decision (`control_logic.make_control_decision`) -/

/-- Weather-based adjustment step of `make_control_decision`
(lines 106-130), including the re-applied min/max clamps. -/
def weather_adjusted_target (preferences : ZonePreferences)
    (current_weather : Option (Option ℚ)) (target_setpoint : ℚ) : ℚ :=
  match current_weather with
  | none => target_setpoint
  | some temp_c =>
    if preferences.allow_weather_adjustment then
      match temp_c with
      | none => target_setpoint
      | some outdoor_temp =>
        let adjusted :=
          if outdoor_temp < preferences.weather_adjustment_freezing_threshold then
            target_setpoint + preferences.weather_adjustment_cold_boost_degrees
          else if outdoor_temp > preferences.weather_adjustment_mild_threshold ∧
              preferences.weather_adjustment_mild_reduction_degrees > 0 then
            target_setpoint - preferences.weather_adjustment_mild_reduction_degrees
          else target_setpoint
        let clamped_low := match preferences.min_target_temp with
          | some mn => max adjusted mn
          | none => adjusted
        match preferences.max_target_temp with
        | some mx => min clamped_low mx
        | none => clamped_low
    else target_setpoint

/-- Target computation of `make_control_decision` (lines 69-130): schedule
setpoint, occupancy setback, min/max clamps, then weather adjustment. -/
def compute_target_setpoint (preferences : ZonePreferences) (current_occupancy : Bool)
    (current_time : Nat) (current_weather : Option (Option ℚ)) : Option ℚ :=
  match get_active_schedule_setpoint preferences current_time with
  | none => none
  | some scheduled_target =>
    let after_occupancy :=
      if preferences.use_occupancy_for_heating && !current_occupancy then
        match preferences.setback_setpoint with
        | some setback => setback
        | none => scheduled_target
      else scheduled_target
    let after_min := match preferences.min_target_temp with
      | some mn => max after_occupancy mn
      | none => after_occupancy
    let after_max := match preferences.max_target_temp with
      | some mx => min after_min mx
      | none => after_min
    some (weather_adjusted_target preferences current_weather after_max)

/-- Hysteresis step of `make_control_decision` (lines 135-144). -/
def hysteresis_decision (current_temp target_setpoint : ℚ)
    (current_heater_state_from_modbus : Bool) : Bool :=
  if current_temp < target_setpoint - 0.5 then true
  else if current_temp > target_setpoint + 0.2 then false
  else current_heater_state_from_modbus

/-- `control_logic.make_control_decision` (lines 45-156).  The first
argument is the outcome of parsing `zone.preferences` (lines 58-67);
`none` is the caught-exception fallback returning `(False, None)`. -/
def make_control_decision (prefs : Option ZonePreferences) (current_temp : ℚ)
    (current_occupancy : Bool) (current_heater_state_from_modbus : Bool)
    (current_time : Nat) (current_weather : Option (Option ℚ)) : Bool × Option ℚ :=
  match prefs with
  | none => (false, none)
  | some preferences =>
    match compute_target_setpoint preferences current_occupancy current_time current_weather with
    | none => (false, none)
    | some target_setpoint =>
      (hysteresis_decision current_temp target_setpoint current_heater_state_from_modbus,
        some target_setpoint)

/-! ### Register device state (`src/zone_simulator.py`) -/

/-- The mutable runtime state of `ZoneSimulator` (current/target
temperature, occupancy, heater flag). -/
structure ZoneSimulatorState where
  current_temperature : ℚ
  target_temperature : ℚ
  is_occupied : Bool
  heater_on : Bool

/-- `ZoneSimulator.get_target_temperature_register_value` (line 187-188):
`int(target_temperature * 10)`. -/
def get_target_temperature_register_value (st : ZoneSimulatorState) : ℤ :=
  pyTrunc (st.target_temperature * 10)

/-- `ZoneSimulator.set_target_temperature_from_register` (lines 196-200):
`new_temp = round(float(value / 10.0), 1)`, assigned only when it differs
from the current target. -/
def set_target_temperature_from_register (st : ZoneSimulatorState) (value : ℤ) :
    ZoneSimulatorState :=
  let new_temp := pyRound1 ((value : ℚ) / 10)
  if st.target_temperature ≠ new_temp then
    { st with target_temperature := new_temp }
  else st

/-! ### Energy pricer (`src/energy_pricer.py`) -/

/-- The price level computed by `energy_pricer.get_current_energy_price`
(lines 12-37) from the hour of the day. -/
def get_current_energy_price_level (hour : Nat) : String :=
  if hour < 7 then "OFF_PEAK"
  else if 17 ≤ hour ∧ hour < 21 then "PEAK"
  else "STANDARD"

/-! ### Setpoint arbiter (`scripts/run_historical_simulation.py`) -/

/-- Result of `_get_setpoints_for_time` inside `calculate_ideal_target`. -/
structure SetpointsAtTime where
  occupied_temp : ℚ
  unoccupied_temp : ℚ
  is_scheduled : Bool

/-- `_get_setpoints_for_time` (lines 60-73): first entry of the reversed
sorted schedule whose time is at most the query time, else the defaults
with `is_scheduled = false`. -/
def get_setpoints_for_time (time_to_check : Nat) (schedule_entries : List ScheduleEntry)
    (default_occ_temp default_unocc_temp : ℚ) : SetpointsAtTime :=
  match schedule_entries.reverse.find? (fun entry => decide (entry.time ≤ time_to_check)) with
  | some entry => ⟨entry.occupied_temp, entry.unoccupied_temp, true⟩
  | none => ⟨default_occ_temp, default_unocc_temp, false⟩

/-- One hourly forecast dict handed to `calculate_ideal_target`:
`temp_c` may be missing, and the `time` field is `none` when the key is
missing or the string fails to parse as HH:MM (both paths `continue`). -/
structure ForecastEntry where
  time : Option Nat
  temp_c : Option ℚ

/-- The guard `energy_ok_for_preheat` (line 113).  Note the lowercase
level names: `get_current_energy_price` produces uppercase levels, so
with levels from the repository pricer both disequalities hold. -/
def energy_ok_for_preheat (energy_price_level : Option String)
    (zone_prefs : ZonePreferences) : Bool :=
  (!(energy_price_level == some "super_peak")) &&
    ((!(energy_price_level == some "peak")) || zone_prefs.prioritize_comfort_over_peak_cost)

/-- Python `x is not None and x > threshold` on an optional float. -/
def outside_above (outside : Option ℚ) (threshold : ℚ) : Bool :=
  match outside with
  | some x => decide (x > threshold)
  | none => false

/-- The predictive-control scan of `calculate_ideal_target` (lines
97-129): walk the first `predictive_window_hours` forecast entries, with
the first qualifying drop or rise branch ending the scan. -/
def predictive_scan (zone_prefs : ZonePreferences) (parsed_schedule : List ScheduleEntry)
    (default_occ default_unocc : ℚ) (is_occupied : Bool)
    (current_outside_temp current_internal_temp : ℚ)
    (energy_price_level : Option String) :
    List ForecastEntry → Nat → ℚ → ℚ
  | _, 0, ideal_target_temp => ideal_target_temp
  | [], _, ideal_target_temp => ideal_target_temp
  | entry :: rest, fuel + 1, ideal_target_temp =>
    match entry.temp_c, entry.time with
    | some future_temp_c, some future_time =>
      let future_sp := get_setpoints_for_time future_time parsed_schedule default_occ default_unocc
      let drop := current_outside_temp - future_temp_c > zone_prefs.predictive_temp_drop_threshold
      let eok := energy_ok_for_preheat energy_price_level zone_prefs
      if drop ∧ eok ∧ is_occupied then
        ideal_target_temp + zone_prefs.predictive_preheat_increase
      else if drop ∧ eok ∧ ¬is_occupied ∧ future_sp.is_scheduled ∧
          future_temp_c < future_sp.occupied_temp ∧
          current_internal_temp < future_sp.occupied_temp then
        future_sp.occupied_temp + zone_prefs.predictive_preheat_increase
      else if future_temp_c - current_outside_temp > zone_prefs.predictive_temp_rise_threshold ∧
          is_occupied then
        ideal_target_temp - zone_prefs.predictive_avoid_overheat_reduction
      else
        predictive_scan zone_prefs parsed_schedule default_occ default_unocc is_occupied
          current_outside_temp current_internal_temp energy_price_level rest fuel
          ideal_target_temp
    | _, _ =>
      predictive_scan zone_prefs parsed_schedule default_occ default_unocc is_occupied
        current_outside_temp current_internal_temp energy_price_level rest fuel
        ideal_target_temp

/-- `calculate_ideal_target` (lines 36-151): schedule resolution,
predictive scan, preheat cap, price-level deltas, high-outside reduction,
clamping to min/max and rounding to one decimal place.  The function
reads `default_occupied_temp`, `default_unoccupied_temp`,
`min_target_temp` and `max_target_temp` as plain floats; a `None` in any
of them would raise in Python and is modelled as `none`. -/
def calculate_ideal_target (sim_time : Nat) (zone_prefs : ZonePreferences)
    (current_internal_temp : ℚ) (is_occupied : Bool)
    (current_outside_temp : Option ℚ) (hourly_forecast_data : List ForecastEntry)
    (energy_price_level : Option String) : Option ℚ :=
  match zone_prefs.default_occupied_temp, zone_prefs.default_unoccupied_temp,
      zone_prefs.min_target_temp, zone_prefs.max_target_temp with
  | some default_occ, some default_unocc, some min_target, some max_target =>
    let parsed_schedule_entries := zone_prefs.schedule.mergeSort schedule_le
    let current_time_setpoints :=
      get_setpoints_for_time sim_time parsed_schedule_entries default_occ default_unocc
    let active_occupied_setpoint := current_time_setpoints.occupied_temp
    let active_unoccupied_setpoint := current_time_setpoints.unoccupied_temp
    let ideal0 := if is_occupied then active_occupied_setpoint else active_unoccupied_setpoint
    let ideal1 :=
      if zone_prefs.allow_predictive_control && (!hourly_forecast_data.isEmpty) &&
          current_outside_temp.isSome then
        predictive_scan zone_prefs parsed_schedule_entries default_occ default_unocc
          is_occupied (current_outside_temp.getD 0) current_internal_temp
          energy_price_level hourly_forecast_data zone_prefs.predictive_window_hours ideal0
      else ideal0
    let max_allowed_temp_after_boost :=
      active_occupied_setpoint + zone_prefs.max_combined_preheat_boost
    let ideal2 :=
      if (is_occupied ∨ (¬is_occupied ∧ ideal1 > active_unoccupied_setpoint)) ∧
          ideal1 > max_allowed_temp_after_boost then
        max_allowed_temp_after_boost
      else ideal1
    let ideal3 :=
      if is_occupied then
        if energy_price_level = some "peak" then
          ideal2 - zone_prefs.peak_occupied_temp_reduction
        else if energy_price_level = some "super_peak" then
          ideal2 - zone_prefs.super_peak_occupied_temp_reduction
        else if energy_price_level = some "off_peak" ∧
            zone_prefs.allow_off_peak_preconditioning then
          let boosted := ideal2 + zone_prefs.off_peak_occupied_temp_increase
          if boosted > max_allowed_temp_after_boost then max_allowed_temp_after_boost
          else boosted
        else ideal2
      else ideal2
    let ideal4 :=
      if is_occupied ∧
          outside_above current_outside_temp zone_prefs.high_outside_temp_threshold then
        ideal3 - zone_prefs.occupied_temp_reduction_high_outside
      else ideal3
    some (pyRound1 (max min_target (min max_target ideal4)))
  | _, _, _, _ => none

/-! ### Thermal models -/

/-- `calculate_new_zone_temp` (`scripts/run_historical_simulation.py`
lines 154-181).  The source reads the two per-hour rates from
`zone_prefs.heating_rate_degC_per_hour` and
`zone_prefs.cooling_rate_factor_per_hour`; those fields are not declared
in `schemas.ZonePreferences`, so they are taken as explicit arguments
here.  The `target_temp` argument is unused in the source as well. -/
def calculate_new_zone_temp (current_temp _target_temp outside_temp : ℚ)
    (heater_on : Bool) (time_step_minutes : ℚ)
    (heating_rate_degC_per_hour cooling_rate_factor_per_hour : ℚ) : ℚ :=
  let heating_rate_per_minute := heating_rate_degC_per_hour / 60
  let cooling_rate_factor_per_minute := cooling_rate_factor_per_hour / 60
  let delta_heating := if heater_on then heating_rate_per_minute * time_step_minutes else 0
  let delta_temp :=
    delta_heating + (outside_temp - current_temp) * cooling_rate_factor_per_minute * time_step_minutes
  current_temp + delta_temp

/-- Modelled from the spec (the formula of claim C5): new temperature =
current + (heater_on ? heating_rate/60 * minutes : 0) +
(outdoor - current) * cooling_factor/60 * minutes.  Written from the
words of the spec for comparison with the source definitions. -/
def thermal_step_spec_formula (current outdoor : ℚ) (heater_on : Bool)
    (minutes heating_rate cooling_factor : ℚ) : ℚ :=
  current + (if heater_on then heating_rate / 60 * minutes else 0) +
    (outdoor - current) * cooling_factor / 60 * minutes

/-! ### Historical replay (`src/historical_simulator.py`) -/

/-- `HEATER_POWER_KW = 2.0` (line 162). -/
def HEATER_POWER_KW : ℚ := 2

/-- The inline thermal update of the replay loop (lines 209-216), with the
fixed `heating_rate = 1.0` and `cooling_factor = 0.1`.  When the heater is
on only the heating increment is applied; when it is off only the cooling
relaxation toward the outdoor temperature is applied. -/
def hist_sim_temp_step (sim_current_temp outdoor_temp : ℚ) (sim_heater_on : Bool) : ℚ :=
  if sim_heater_on then sim_current_temp + 1
  else sim_current_temp - (sim_current_temp - outdoor_temp) * 0.1

/-- The clamp applied by the replay caller (line 218). -/
def hist_sim_clamp (t : ℚ) : ℚ := max 10 (min 30 t)

/-- One hourly sample of historical weather: the timestamp is reduced to
the fields the replay reads (hour, minute, weekday), and `temperature_2m`
may be missing. -/
structure WeatherHour where
  hour : Nat
  minute : Nat
  weekday : Nat
  temperature_2m : Option ℚ

/-- `models.HistoricalSimulationDataPoint` as written by the replay loop
(lines 189-200). -/
structure HistoricalSimulationDataPoint where
  hour : Nat
  minute : Nat
  temperature_simulated : ℚ
  target_temperature_control : ℚ
  heater_on_simulated : Bool
  occupancy_simulated : Bool
  outdoor_temp_actual : ℚ
  energy_price_level_simulated : String

/-- The mutable state threaded through the replay loop.  `decisions` is a
ghost trace recording the value taken by `sim_heater_on` after each
iteration (the value that drives the energy accumulation). -/
structure SimState where
  temp : ℚ
  heater : Bool
  energy : ℚ
  points : List HistoricalSimulationDataPoint
  decisions : List Bool

/-- One iteration of the replay loop (lines 165-218): derive occupancy
from the fixed weekday/daytime rule, call `make_control_decision`, append
one data point (recording the pre-decision heater state), adopt the
decision, advance the temperature, clamp, and accumulate energy. -/
def replay_step (prefs : Option ZonePreferences) (st : SimState) (w : WeatherHour) :
    SimState :=
  let outdoor_temp := w.temperature_2m.getD 10
  let sim_occupancy := decide (7 ≤ w.hour) && decide (w.hour < 22) && decide (w.weekday < 5)
  let decision := make_control_decision prefs st.temp sim_occupancy st.heater
    (w.hour * 60 + w.minute) (some (some outdoor_temp))
  let data_point : HistoricalSimulationDataPoint :=
    { hour := w.hour
      minute := w.minute
      temperature_simulated := pyRound2 st.temp
      target_temperature_control :=
        match decision.2 with
        | some t => pyRound2 t
        | none => st.temp
      heater_on_simulated := st.heater
      occupancy_simulated := sim_occupancy
      outdoor_temp_actual := pyRound2 outdoor_temp
      energy_price_level_simulated := get_current_energy_price_level w.hour }
  let sim_heater_on := decision.1
  { temp := hist_sim_clamp (hist_sim_temp_step st.temp outdoor_temp sim_heater_on)
    heater := sim_heater_on
    energy := if sim_heater_on then st.energy + HEATER_POWER_KW else st.energy
    points := st.points ++ [data_point]
    decisions := st.decisions ++ [sim_heater_on] }

/-- Status of a `HistoricalSimulationRun` record. -/
inductive RunStatus where
  | RUNNING
  | FAILED
  | COMPLETED
deriving DecidableEq

/-- The observable outcome of `run_historical_simulation_for_zone`: the
final run-record status and message, the appended data points, the ghost
decision trace, and the completion fields. -/
structure RunOutcome where
  status : RunStatus
  status_message : String
  points : List HistoricalSimulationDataPoint
  decisions : List Bool
  calculated_energy_kwh : Option ℚ
  total_simulated_hours : Option Nat

/-- Initial heater state of the replay (lines 153-159). -/
def initial_heater_state (preferences : ZonePreferences) (sim_current_temp : ℚ)
    (initial_time : Nat) : Bool :=
  match get_active_schedule_setpoint preferences initial_time with
  | some initial_target_temp => decide (sim_current_temp < initial_target_temp - 0.5)
  | none => false

/-- `run_historical_simulation_for_zone` (lines 134-228), starting from
the weather-availability check: an empty weather list makes the run fail
with zero data points; otherwise the replay loop runs to completion.
`prefs` is the parse outcome used by `make_control_decision` on each step;
`preferences_local` is the separately constructed `ZonePreferences` of
lines 148-151 used for the initial heater state; `sim_start_temp` is the
initial simulated temperature of line 144. -/
def run_historical_simulation_for_zone (prefs : Option ZonePreferences)
    (preferences_local : ZonePreferences) (sim_start_temp : ℚ)
    (historical_weather_data : List WeatherHour) : RunOutcome :=
  if historical_weather_data.isEmpty then
    { status := RunStatus.FAILED
      status_message := "Failed to fetch historical weather data."
      points := []
      decisions := []
      calculated_energy_kwh := none
      total_simulated_hours := none }
  else
    let initial_time :=
      match historical_weather_data.head? with
      | some w => w.hour * 60 + w.minute
      | none => 0
    let st0 : SimState :=
      { temp := sim_start_temp
        heater := initial_heater_state preferences_local sim_start_temp initial_time
        energy := 0
        points := []
        decisions := [] }
    let stF := historical_weather_data.foldl (replay_step prefs) st0
    { status := RunStatus.COMPLETED
      status_message := "Simulation completed. Processed " ++
        toString historical_weather_data.length ++ " data points."
      points := stF.points
      decisions := stF.decisions
      calculated_energy_kwh := some (pyRound2 stF.energy)
      total_simulated_hours := some historical_weather_data.length }

/-! ### Time-string validation (`schemas.ScheduleEntry.validate_time_format`) -/

/-- The core of the regular expression
`(?:[01]\d|2[0-3]):[0-5]\d` against a character list, with the character
class `\d` taken over the ASCII digits.  (Python `\d` also accepts other
Unicode decimal digits; the development restricts attention to strings
where the two coincide.) -/
def time_regex_core (cs : List Char) : Bool :=
  match cs with
  | [h1, h2, colon, m1, m2] =>
    (((h1 == '0' || h1 == '1') && h2.isDigit) ||
      (h1 == '2' && (decide ('0' ≤ h2) && decide (h2 ≤ '3')))) &&
    colon == ':' &&
    (decide ('0' ≤ m1) && decide (m1 ≤ '5')) && m2.isDigit
  | _ => false

/-- `ScheduleEntry.validate_time_format` (`schemas.py` lines 12-16):
Python `re.match` with the pattern anchored by `^ ... $`.  In Python `$`
matches at the end of the string or just before one trailing newline, so
the pattern accepts both the exact match and the match followed by a
single final newline. -/
def validate_time_format (value : String) : Bool :=
  time_regex_core value.data ||
    (value.data.getLast? == some '\n' && time_regex_core value.data.dropLast)

/-- Modelled from the spec (claim C9): a string of exactly the form HH:MM
with two ASCII-digit fields, hours 00-23 and minutes 00-59. -/
def strict_hhmm (s : String) : Bool :=
  match s.data with
  | [h1, h2, colon, m1, m2] =>
    colon == ':' && h1.isDigit && h2.isDigit && m1.isDigit && m2.isDigit &&
    decide ((h1.toNat - '0'.toNat) * 10 + (h2.toNat - '0'.toNat) ≤ 23) &&
    decide ((m1.toNat - '0'.toNat) * 10 + (m2.toNat - '0'.toNat) ≤ 59)
  | _ => false

/-! ### Rounding facts -/

theorem roundHalfEven_intCast (n : ℤ) : roundHalfEven (n : ℚ) = n := by
  simp [roundHalfEven]

theorem pyRound1_eq_self (q : ℚ) (n : ℤ) (h : q * 10 = (n : ℚ)) : pyRound1 q = q := by
  unfold pyRound1
  rw [h, roundHalfEven_intCast, ← h]
  field_simp

theorem pyRound2_eq_self (q : ℚ) (n : ℤ) (h : q * 100 = (n : ℚ)) : pyRound2 q = q := by
  unfold pyRound2
  rw [h, roundHalfEven_intCast, ← h]
  field_simp

/-! ### Helper lemmas about the schedule scan -/

theorem scan_active_eq_takeWhile (q : Nat) :
    ∀ (l : List ScheduleEntry) (acc : Option ScheduleEntry),
      scan_active l q acc =
        ((l.takeWhile fun e => decide (e.time ≤ q)).getLast?).or acc := by
  intro l
  induction l with
  | nil => intro acc; simp [scan_active]
  | cons e rest ih =>
    intro acc
    by_cases he : e.time ≤ q
    · rw [scan_active, if_pos he, ih (some e)]
      rw [List.takeWhile_cons, if_pos (by simpa using he)]
      cases hrest : (rest.takeWhile fun e2 => decide (e2.time ≤ q)) with
      | nil => simp
      | cons b t =>
        obtain ⟨z, hz⟩ := Option.isSome_iff_exists.mp
          (List.getLast?_isSome.mpr (List.cons_ne_nil b t))
        rw [List.getLast?_cons_cons, hz]
        simp
    · rw [scan_active, if_neg he]
      rw [List.takeWhile_cons, if_neg (by simpa using he)]
      simp

theorem filter_eq_takeWhile_of_sorted (q : Nat) :
    ∀ (l : List ScheduleEntry),
      List.Pairwise (fun a b : ScheduleEntry => a.time ≤ b.time) l →
      (l.filter fun e => decide (e.time ≤ q)) =
        (l.takeWhile fun e => decide (e.time ≤ q)) := by
  intro l
  induction l with
  | nil => intro _; rfl
  | cons e rest ih =>
    intro hp
    rcases List.pairwise_cons.mp hp with ⟨hhead, htail⟩
    by_cases he : e.time ≤ q
    · rw [List.filter_cons, if_pos (by simpa using he),
        List.takeWhile_cons, if_pos (by simpa using he), ih htail]
    · rw [List.filter_cons, if_neg (by simpa using he),
        List.takeWhile_cons, if_neg (by simpa using he)]
      rw [List.filter_eq_nil_iff]
      intro a ha
      simp only [decide_eq_true_eq]
      intro haq
      exact he (le_trans (hhead a ha) haq)

theorem pairwise_getLast?_bound :
    ∀ (l : List ScheduleEntry),
      List.Pairwise (fun a b : ScheduleEntry => a.time ≤ b.time) l →
      ∀ (e : ScheduleEntry), l.getLast? = some e →
      ∀ x ∈ l, x.time ≤ e.time := by
  intro l
  induction l with
  | nil => intro _ e he; simp at he
  | cons a rest ih =>
    intro hp e he x hx
    rcases List.pairwise_cons.mp hp with ⟨hhead, htail⟩
    cases rest with
    | nil =>
      simp at he hx
      subst he; subst hx
      exact le_rfl
    | cons b t =>
      rw [List.getLast?_cons_cons] at he
      rcases hx with _ | hx
      · exact le_trans (hhead e (List.mem_of_mem_getLast? he)) le_rfl
      · exact ih htail e he x (by assumption)

/-! ### Bounds helpers for the clamped target -/

theorem clamp_mem (mn mx x : ℚ) (h : mn ≤ mx) :
    mn ≤ min (max x mn) mx ∧ min (max x mn) mx ≤ mx :=
  ⟨le_min (le_max_right _ _) h, min_le_right _ _⟩

theorem weather_adjusted_target_bounds (p : ZonePreferences) (w : Option (Option ℚ))
    (x mn mx : ℚ) (hmin : p.min_target_temp = some mn) (hmax : p.max_target_temp = some mx)
    (h : mn ≤ mx) (hx1 : mn ≤ x) (hx2 : x ≤ mx) :
    mn ≤ weather_adjusted_target p w x ∧ weather_adjusted_target p w x ≤ mx := by
  unfold weather_adjusted_target
  cases w with
  | none => exact ⟨hx1, hx2⟩
  | some tc =>
    by_cases ha : p.allow_weather_adjustment
    · cases tc with
      | none => simpa [ha] using ⟨hx1, hx2⟩
      | some o =>
        simp only [ha, if_true]
        rw [hmin, hmax]
        exact clamp_mem mn mx _ h
    · simp only [Bool.not_eq_true] at ha
      cases tc <;> simpa [ha] using ⟨hx1, hx2⟩

/-! ### Concrete evaluation of the end-to-end example decision -/

theorem example_decision_eval :
    make_control_decision (some defaultZonePreferences) 19 true false 720 none =
      (true, some 21) := by
  norm_num [make_control_decision, compute_target_setpoint, get_active_schedule_setpoint,
    weather_adjusted_target, hysteresis_decision, defaultZonePreferences]

/-! ### Claim theorems -/

/-- C10: when the stored preferences of a zone fail to parse as a valid
preference structure, `make_control_decision` does not raise and returns
heater off with no target setpoint. -/
theorem malformed_preferences_safe_default (current_temp : ℚ)
    (current_occupancy current_heater : Bool) (current_time : Nat)
    (current_weather : Option (Option ℚ)) :
    make_control_decision none current_temp current_occupancy current_heater
      current_time current_weather = (false, none) := rfl

/-- C1: whenever both clamp bounds are configured (with min at most max),
every target setpoint returned by `make_control_decision` lies within
the interval, for every combination of temperature, occupancy, time and
weather input, including after the weather-based adjustment step. -/
theorem control_decision_target_within_bounds (p : ZonePreferences)
    (mn mx current_temp : ℚ) (current_occupancy current_heater : Bool)
    (current_time : Nat) (current_weather : Option (Option ℚ)) (target : ℚ)
    (hmin : p.min_target_temp = some mn) (hmax : p.max_target_temp = some mx)
    (hmm : mn ≤ mx)
    (hres : (make_control_decision (some p) current_temp current_occupancy current_heater
      current_time current_weather).2 = some target) :
    mn ≤ target ∧ target ≤ mx := by
  cases hc : compute_target_setpoint p current_occupancy current_time current_weather with
  | none => simp [make_control_decision, hc] at hres
  | some ts =>
    have hts : ts = target := by simpa [make_control_decision, hc] using hres
    subst hts
    rw [compute_target_setpoint] at hc
    cases hs : get_active_schedule_setpoint p current_time with
    | none => rw [hs] at hc; exact absurd hc (by simp)
    | some scheduled_target =>
      rw [hs] at hc
      simp only [hmin, hmax, Option.some.injEq] at hc
      rw [← hc]
      have hbase := clamp_mem mn mx
        (if p.use_occupancy_for_heating && !current_occupancy then
          match p.setback_setpoint with
          | some setback => setback
          | none => scheduled_target
        else scheduled_target) hmm
      exact weather_adjusted_target_bounds p current_weather _ mn mx hmin hmax hmm
        hbase.1 hbase.2

/-- C1 witness: the default preference set at the end-to-end example
input returns target 21, which lies within the configured bounds 15 and
25. -/
theorem control_decision_target_within_bounds_witness : (15 : ℚ) ≤ 21 ∧ (21 : ℚ) ≤ 25 :=
  control_decision_target_within_bounds defaultZonePreferences 15 25 19 true false 720
    none 21 rfl rfl (by norm_num) (by rw [example_decision_eval])

/-- C3: hysteresis dead-band of `make_control_decision`: relative to the
returned target setpoint, a current temperature in the dead-band keeps
the prior heater state, a temperature below target minus 0.5 turns the
heater on, and a temperature above target plus 0.2 turns it off. -/
theorem control_decision_hysteresis_deadband (prefs : Option ZonePreferences)
    (current_temp : ℚ) (current_occupancy current_heater : Bool) (current_time : Nat)
    (current_weather : Option (Option ℚ)) (target : ℚ)
    (hres : (make_control_decision prefs current_temp current_occupancy current_heater
      current_time current_weather).2 = some target) :
    (target - 0.5 ≤ current_temp ∧ current_temp ≤ target + 0.2 →
      (make_control_decision prefs current_temp current_occupancy current_heater
        current_time current_weather).1 = current_heater) ∧
    (current_temp < target - 0.5 →
      (make_control_decision prefs current_temp current_occupancy current_heater
        current_time current_weather).1 = true) ∧
    (current_temp > target + 0.2 →
      (make_control_decision prefs current_temp current_occupancy current_heater
        current_time current_weather).1 = false) := by
  cases prefs with
  | none => simp [make_control_decision] at hres
  | some p =>
    cases hc : compute_target_setpoint p current_occupancy current_time current_weather with
    | none => simp [make_control_decision, hc] at hres
    | some ts =>
      have hts : ts = target := by simpa [make_control_decision, hc] using hres
      subst hts
      have hfst : (make_control_decision (some p) current_temp current_occupancy
          current_heater current_time current_weather).1 =
          hysteresis_decision current_temp ts current_heater := by
        simp [make_control_decision, hc]
      rw [hfst]
      unfold hysteresis_decision
      refine ⟨?_, ?_, ?_⟩
      · rintro ⟨h1, h2⟩
        rw [if_neg (by linarith), if_neg (by linarith)]
      · intro h1
        rw [if_pos h1]
      · intro h1
        rw [if_neg (by linarith), if_pos h1]

/-- C3 witness: at the end-to-end example input the current temperature
19 is below target 21 minus 0.5, so the decision is heater on. -/
theorem control_decision_hysteresis_deadband_witness :
    (make_control_decision (some defaultZonePreferences) 19 true false 720 none).1 = true :=
  (control_decision_hysteresis_deadband (some defaultZonePreferences) 19 true false 720
    none 21 (by rw [example_decision_eval])).2.1 (by norm_num)

/-- C2: for a schedule sorted ascending by time of day,
`get_active_schedule_setpoint` returns the occupied setpoint of the entry
with the latest time of day at most the query time (the last element of
the filtered schedule), and the stored default when no entry qualifies or
the schedule is empty. -/
theorem schedule_resolver_latest_entry (p : ZonePreferences) (q : Nat)
    (hsorted : List.Pairwise (fun a b : ScheduleEntry => a.time ≤ b.time) p.schedule) :
    (∀ e : ScheduleEntry,
      (p.schedule.filter fun e2 => decide (e2.time ≤ q)).getLast? = some e →
      get_active_schedule_setpoint p q = some e.occupied_temp ∧ e.time ≤ q ∧
        ∀ e2 ∈ p.schedule, e2.time ≤ q → e2.time ≤ e.time) ∧
    ((p.schedule.filter fun e2 => decide (e2.time ≤ q)).getLast? = none →
      get_active_schedule_setpoint p q = p.default_occupied_temp) := by
  have hms : p.schedule.mergeSort schedule_le = p.schedule :=
    List.mergeSort_of_sorted
      (hsorted.imp (fun h => by simpa [schedule_le] using h))
  by_cases hemp : p.schedule.isEmpty
  · have hnil : p.schedule = [] := by simpa using hemp
    constructor
    · intro e he
      rw [hnil] at he
      simp at he
    · intro _
      rw [get_active_schedule_setpoint, if_pos hemp]
  · have hget : get_active_schedule_setpoint p q =
        match (p.schedule.filter fun e2 => decide (e2.time ≤ q)).getLast? with
        | some active_entry => some active_entry.occupied_temp
        | none => p.default_occupied_temp := by
      have hft := filter_eq_takeWhile_of_sorted q p.schedule hsorted
      rw [get_active_schedule_setpoint, if_neg hemp]
      simp only [hms, scan_active_eq_takeWhile q, Option.or_none, ← hft]
    constructor
    · intro e he
      refine ⟨by rw [hget, he], ?_, ?_⟩
      · have hmem := List.mem_of_mem_getLast? he
        simpa using (List.mem_filter.mp hmem).2
      · intro e2 he2 hq2
        have hmem2 : e2 ∈ p.schedule.filter fun e3 => decide (e3.time ≤ q) :=
          List.mem_filter.mpr ⟨he2, by simpa using hq2⟩
        exact pairwise_getLast?_bound _ (hsorted.filter _) e he e2 hmem2
    · intro he
      rw [hget, he]

/-- C2 witness: a one-entry schedule at 08:00 with occupied setpoint 22
resolves to 22 when queried at 08:20. -/
theorem schedule_resolver_latest_entry_witness :
    get_active_schedule_setpoint
      { defaultZonePreferences with schedule := [⟨480, 22, 17⟩] } 500 = some 22 :=
  ((schedule_resolver_latest_entry
      { defaultZonePreferences with schedule := [⟨480, 22, 17⟩] } 500 (by simp)).1
    ⟨480, 22, 17⟩ (by simp)).1

/-- C8: register round-trip.  Writing a scaled value to the
target-temperature register sets the runtime target temperature to
`round(value/10, 1)`, and reading the register back re-encodes it as
`int(target * 10)`, recovering the written value; the decoded read-back
therefore agrees with `round(value/10, 1)` to within 0.1 degrees. -/
theorem register_round_trip (st : ZoneSimulatorState) (value : ℕ) :
    (set_target_temperature_from_register st (value : ℤ)).target_temperature =
      pyRound1 ((value : ℚ) / 10) ∧
    get_target_temperature_register_value
      (set_target_temperature_from_register st (value : ℤ)) = (value : ℤ) ∧
    |((get_target_temperature_register_value
        (set_target_temperature_from_register st (value : ℤ)) : ℚ) / 10) -
      pyRound1 ((value : ℚ) / 10)| ≤ 0.1 := by
  have hr : pyRound1 ((value : ℚ) / 10) = (value : ℚ) / 10 := by
    refine pyRound1_eq_self _ (value : ℤ) ?_
    push_cast
    field_simp
  have htar : (set_target_temperature_from_register st (value : ℤ)).target_temperature =
      pyRound1 (((value : ℤ) : ℚ) / 10) := by
    simp only [set_target_temperature_from_register]
    split
    · rfl
    · rename_i h
      exact not_ne_iff.mp h
  have htar2 : (set_target_temperature_from_register st (value : ℤ)).target_temperature =
      pyRound1 ((value : ℚ) / 10) := by
    rw [htar]
    push_cast
    rfl
  have hreg : get_target_temperature_register_value
      (set_target_temperature_from_register st (value : ℤ)) = (value : ℤ) := by
    rw [get_target_temperature_register_value, htar2, hr]
    have h10 : ((value : ℚ) / 10) * 10 = ((value : ℕ) : ℚ) := by field_simp
    rw [h10, pyTrunc, if_neg (not_lt.mpr (by positivity))]
    exact_mod_cast Int.floor_natCast value
  refine ⟨htar2, hreg, ?_⟩
  rw [hreg, hr]
  push_cast
  norm_num

/-- C7: a replay that obtains no weather samples terminates immediately
with status FAILED, a human-readable message, and zero data points. -/
theorem replay_without_weather_fails (prefs : Option ZonePreferences)
    (preferences_local : ZonePreferences) (sim_start_temp : ℚ) :
    (run_historical_simulation_for_zone prefs preferences_local sim_start_temp []).status =
      RunStatus.FAILED ∧
    (run_historical_simulation_for_zone prefs preferences_local sim_start_temp
      []).status_message = "Failed to fetch historical weather data." ∧
    (run_historical_simulation_for_zone prefs preferences_local sim_start_temp []).points =
      [] :=
  ⟨rfl, rfl, rfl⟩

theorem replay_step_energy_decisions (prefs : Option ZonePreferences) (st : SimState)
    (w : WeatherHour) :
    ∃ d : Bool, (replay_step prefs st w).decisions = st.decisions ++ [d] ∧
      (replay_step prefs st w).energy =
        if d then st.energy + HEATER_POWER_KW else st.energy :=
  ⟨_, rfl, rfl⟩

theorem replay_energy_invariant (prefs : Option ZonePreferences) :
    ∀ (ws : List WeatherHour) (st : SimState),
      ((ws.foldl (replay_step prefs) st).energy : ℚ) =
        st.energy + HEATER_POWER_KW *
          ((((ws.foldl (replay_step prefs) st).decisions.count true : ℕ) : ℚ) -
            ((st.decisions.count true : ℕ) : ℚ)) := by
  intro ws
  induction ws with
  | nil =>
    intro st
    simp
  | cons w rest ih =>
    intro st
    rw [List.foldl_cons, ih]
    obtain ⟨d, h1, h2⟩ := replay_step_energy_decisions prefs st w
    rw [h1, h2, List.count_append]
    cases d
    · simp
    · simp
      ring

/-- C6: the total accumulated energy of a (non-trivially started) replay
run equals `HEATER_POWER_KW` times the number of steps whose heater
decision was on times the step duration of one hour; in particular a run
whose decisions are all off accumulates zero energy. -/
theorem replay_energy_accumulation (prefs : Option ZonePreferences)
    (preferences_local : ZonePreferences) (sim_start_temp : ℚ)
    (w : WeatherHour) (ws : List WeatherHour) :
    (run_historical_simulation_for_zone prefs preferences_local sim_start_temp
      (w :: ws)).calculated_energy_kwh =
      some (HEATER_POWER_KW *
        (((run_historical_simulation_for_zone prefs preferences_local sim_start_temp
          (w :: ws)).decisions.count true : ℕ) : ℚ) * 1) := by
  have hne : ¬(w :: ws).isEmpty = true := by simp
  rw [run_historical_simulation_for_zone, if_neg hne]
  simp only []
  set st0 : SimState :=
    { temp := sim_start_temp
      heater := initial_heater_state preferences_local sim_start_temp
        (match (w :: ws).head? with
          | some w0 => w0.hour * 60 + w0.minute
          | none => 0)
      energy := 0
      points := []
      decisions := [] } with hst0
  have hE := replay_energy_invariant prefs (w :: ws) st0
  rw [hst0] at hE
  simp only [List.count_nil] at hE
  set cnt := (((w :: ws).foldl (replay_step prefs) st0).decisions.count true : ℕ) with hcnt
  have hE2 : ((w :: ws).foldl (replay_step prefs) st0).energy =
      HEATER_POWER_KW * (cnt : ℚ) := by
    rw [hE]
    push_cast
    ring
  rw [hE2]
  have hround : pyRound2 (HEATER_POWER_KW * (cnt : ℚ)) = HEATER_POWER_KW * (cnt : ℚ) := by
    refine pyRound2_eq_self _ (200 * (cnt : ℤ)) ?_
    rw [HEATER_POWER_KW]
    push_cast
    ring
  rw [hround, HEATER_POWER_KW]
  ring_nf

/-- C5 counterexample: in the replay loop of `historical_simulator.py`,
a heater-on step with current temperature 20, outdoor temperature 10,
heating rate 1 degree per hour and cooling factor 0.1 per hour over 60
minutes yields 21, while the claimed formula yields 20, because the code
omits the cooling term whenever the heater is on. -/
theorem thermal_step_formula_counterexample :
    hist_sim_temp_step 20 10 true = 21 ∧
    thermal_step_spec_formula 20 10 true 60 1 0.1 = 20 ∧
    hist_sim_temp_step 20 10 true ≠ thermal_step_spec_formula 20 10 true 60 1 0.1 := by
  norm_num [hist_sim_temp_step, thermal_step_spec_formula]

/-- C5 amended: the replay thermal step applies the claimed formula only
when the heater is off; when the heater is on it applies the heating
increment with the cooling term dropped (the claimed formula with cooling
factor 0).  The standalone `calculate_new_zone_temp` of the scripts
replay does satisfy the claimed formula for both heater states, and the
database-backed replay caller clamps each step result to [10, 30]. -/
theorem thermal_step_amended (c o : ℚ) (b : Bool) (prefs : Option ZonePreferences)
    (st : SimState) (w : WeatherHour) :
    hist_sim_temp_step c o false = thermal_step_spec_formula c o false 60 1 0.1 ∧
    hist_sim_temp_step c o true = thermal_step_spec_formula c o true 60 1 0 ∧
    calculate_new_zone_temp c 0 o b 60 1 0.1 = thermal_step_spec_formula c o b 60 1 0.1 ∧
    (replay_step prefs st w).temp =
      hist_sim_clamp (hist_sim_temp_step st.temp (w.temperature_2m.getD 10)
        (replay_step prefs st w).heater) := by
  refine ⟨?_, ?_, ?_, rfl⟩
  · simp only [hist_sim_temp_step, thermal_step_spec_formula]
    norm_num
    ring
  · simp only [hist_sim_temp_step, thermal_step_spec_formula]
    norm_num
  · cases b <;> simp only [calculate_new_zone_temp, thermal_step_spec_formula] <;>
      norm_num <;> ring

/-- C4: the end-to-end price scenario.  With the schema defaults
(`default_occupied_temp = 21`, no schedule, `peak_occupied_temp_reduction
= 0.5`), occupied, no predictive control: the arbiter returns 21 at the
STANDARD level, but also returns 21 — not 20.5 — when handed the PEAK
level that `get_current_energy_price` actually produces, because the
arbiter compares the level against the lowercase string; only a lowercase
level would trigger the documented reduction to 20.5. -/
theorem peak_price_scenario_eval :
    get_current_energy_price_level 18 = "PEAK" ∧
    calculate_ideal_target 720 defaultZonePreferences 19 true (some 10) []
      (some (get_current_energy_price_level 18)) = some 21 ∧
    calculate_ideal_target 720 defaultZonePreferences 19 true (some 10) []
      (some "STANDARD") = some 21 ∧
    calculate_ideal_target 720 defaultZonePreferences 19 true (some 10) []
      (some "peak") = some 20.5 := by
  have h21 : pyRound1 21 = 21 := pyRound1_eq_self 21 210 (by norm_num)
  have h205 : pyRound1 (41 / 2 : ℚ) = 41 / 2 := pyRound1_eq_self _ 205 (by norm_num)
  have hs1 : ("PEAK" : String) ≠ "peak" := by decide
  have hs2 : ("PEAK" : String) ≠ "super_peak" := by decide
  have hs3 : ("PEAK" : String) ≠ "off_peak" := by decide
  have hs4 : ("STANDARD" : String) ≠ "peak" := by decide
  have hs5 : ("STANDARD" : String) ≠ "super_peak" := by decide
  have hs6 : ("STANDARD" : String) ≠ "off_peak" := by decide
  refine ⟨by decide, ?_, ?_, ?_⟩ <;>
    norm_num [calculate_ideal_target, defaultZonePreferences, get_setpoints_for_time,
      outside_above, get_current_energy_price_level, List.mergeSort_nil,
      max_def, min_def, h21, h205, hs1, hs2, hs3, hs4, hs5, hs6]

/-- C9: the load-time validator accepts the string 12:34 followed by a
newline (Python `$` matches before one trailing newline), although that
string is not of the strict HH:MM form the validator is meant to enforce;
strict HH:MM strings such as 08:30 are accepted, and plainly malformed
strings such as 24:00 and 7:30 are rejected. -/
theorem time_format_trailing_newline_bug :
    validate_time_format "12:34\n" = true ∧ strict_hhmm "12:34\n" = false ∧
    validate_time_format "24:00" = false ∧ validate_time_format "7:30" = false ∧
    validate_time_format "08:30" = true ∧ strict_hhmm "08:30" = true := by
  decide

/-! ### The accept direction of the time-string validator -/

theorem char_eq_of_toNat_eq {c d : Char} (h : c.toNat = d.toNat) : c = d :=
  Char.ext (UInt32.toNat.inj h)

theorem char_le_of_toNat_le {c d : Char} (h : c.toNat ≤ d.toNat) : c ≤ d :=
  Char.le_def.mpr h

theorem isDigit_toNat {c : Char} (h : c.isDigit = true) :
    48 ≤ c.toNat ∧ c.toNat ≤ 57 := by
  unfold Char.isDigit at h
  simp only [Bool.and_eq_true, decide_eq_true_eq] at h
  exact ⟨h.1, h.2⟩

theorem time_regex_core_of_digits (h1 h2 m1 m2 : Char)
    (hd1 : h1.isDigit = true) (hd2 : h2.isDigit = true)
    (hd3 : m1.isDigit = true) (hd4 : m2.isDigit = true)
    (hh : (h1.toNat - '0'.toNat) * 10 + (h2.toNat - '0'.toNat) ≤ 23)
    (hm : (m1.toNat - '0'.toNat) * 10 + (m2.toNat - '0'.toNat) ≤ 59) :
    time_regex_core [h1, h2, ':', m1, m2] = true := by
  have h0 : ('0' : Char).toNat = 48 := rfl
  have h3 : ('3' : Char).toNat = 51 := rfl
  have h5 : ('5' : Char).toNat = 53 := rfl
  rw [h0] at hh hm
  obtain ⟨ha1, ha2⟩ := isDigit_toNat hd1
  obtain ⟨hb1, hb2⟩ := isDigit_toNat hd2
  obtain ⟨hc1, hc2⟩ := isDigit_toNat hd3
  have hmin0 : '0' ≤ m1 := char_le_of_toNat_le (by rw [h0]; omega)
  have hmin5 : m1 ≤ '5' := char_le_of_toNat_le (by rw [h5]; omega)
  have hcases : h1.toNat = 48 ∨ h1.toNat = 49 ∨ h1.toNat = 50 := by omega
  rcases hcases with hc | hc | hc
  · have e : h1 = '0' := char_eq_of_toNat_eq (by rw [hc]; rfl)
    subst e
    simp [time_regex_core, hd2, hd4, hmin0, hmin5]
  · have e : h1 = '1' := char_eq_of_toNat_eq (by rw [hc]; rfl)
    subst e
    simp [time_regex_core, hd2, hd4, hmin0, hmin5]
  · have e : h1 = '2' := char_eq_of_toNat_eq (by rw [hc]; rfl)
    subst e
    have hb0 : '0' ≤ h2 := char_le_of_toNat_le (by rw [h0]; omega)
    have hb3 : h2 ≤ '3' := char_le_of_toNat_le (by rw [h3]; omega)
    simp [time_regex_core, hd2, hd4, hmin0, hmin5, hb0, hb3]

theorem strict_hhmm_accepted (s : String) (h : strict_hhmm s = true) :
    validate_time_format s = true := by
  rw [strict_hhmm] at h
  rw [validate_time_format]
  rcases hd : s.data with _ | ⟨c1, _ | ⟨c2, _ | ⟨c3, _ | ⟨c4, _ | ⟨c5, _ | ⟨c6, t⟩⟩⟩⟩⟩⟩ <;>
    rw [hd] at h <;>
    simp only [Bool.and_eq_true, beq_iff_eq, decide_eq_true_eq, and_assoc] at h <;>
    try exact (Bool.false_ne_true h).elim
  obtain ⟨hcolon, hd1, hd2, hd3, hd4, hh, hm⟩ := h
  subst hcolon
  rw [Bool.or_eq_true]
  exact Or.inl (time_regex_core_of_digits c1 c2 c4 c5 hd1 hd2 hd3 hd4 hh hm)
